import Mathlib

/-!
Verification development for the `cloud_service_utils` package: two thin HTTP
client functions, `inpaint_image_via_faas` (src/cloud_service_utils/inpainting.py)
and `segment_image_via_faas` (src/cloud_service_utils/segmentation.py).

The embedding models:
* bytes as `List Nat` (each element a byte value, reduced mod 256 where used);
* the process environment as `Option String` (the value of RUNPOD_API_KEY);
* the file system as `String → Option (List Nat)`;
* an HTTP response as status, raw text and parsed JSON body;
* the external libraries used by the code (`base64`, `json`, `cv2`,
  `requests.Response.raise_for_status`) as explicit Lean functions, each with a
  doc comment stating the modelling assumption.

Both Python modules use the name `json` without importing it, so the real
functions raise `NameError` when they reach payload serialization; the
embedding keeps that behaviour in the top-level functions and, separately,
embeds the response-processing sections of the source (inpainting.py lines
85-115, segmentation.py lines 69-86) as `inpaint_handle_response` and
`segment_handle_response`, so that properties of those code paths can be
stated non-vacuously.
-/

namespace CloudServiceUtils

/-- Model of an in-memory cv2 image (`numpy` array). Its pixel content is
opaque to the clients, which only pass it to `cv2.imencode`/`cv2.imdecode`,
so it is modelled as a wrapper around an abstract byte payload. -/
structure Img where
  data : List Nat
deriving DecidableEq

/-- The eight-byte signature that begins every PNG byte stream. -/
def pngSignature : List Nat := [137, 80, 78, 71, 13, 10, 26, 10]

/-- Model of the external library call `cv2.imencode('.png', img)`: serializes
an image to PNG bytes. Modelled abstractly as the PNG signature followed by
the image payload — the only property used is that every output of PNG
serialization begins with `pngSignature`, which is true of every PNG stream. -/
def cv2_imencode_png (i : Img) : List Nat := pngSignature ++ i.data

/-- Model of the external library call
`cv2.imdecode(np.frombuffer(bytes, np.uint8), cv2.IMREAD_COLOR)`: decodes a
byte buffer into an in-memory image. Modelled as a successful decode wrapping
the bytes; decode failure (cv2 returning None) is outside the claims checked
here. -/
def cv2_imdecode (bytes : List Nat) : Img := ⟨bytes⟩

/-- The standard base64 alphabet, as a list of 64 characters. -/
def b64alphabet : List Char :=
  ['A','B','C','D','E','F','G','H','I','J','K','L','M','N','O','P',
   'Q','R','S','T','U','V','W','X','Y','Z',
   'a','b','c','d','e','f','g','h','i','j','k','l','m','n','o','p',
   'q','r','s','t','u','v','w','x','y','z',
   '0','1','2','3','4','5','6','7','8','9','+','/']

/-- The base64 character for a 6-bit value. -/
def b64char (n : Nat) : Char := b64alphabet.getD n 'A'

/-- Model of `base64.b64encode` on a byte list (standard alphabet, `=`
padding), producing the characters of the encoded text. Bytes are reduced
mod 256, matching the 8-bit range of Python `bytes`. -/
def b64encodeBytes : List Nat → List Char
  | [] => []
  | [a] =>
      [b64char (a % 256 / 4), b64char (a % 4 * 16), '=', '=']
  | [a, b] =>
      [b64char (a % 256 / 4), b64char (a % 4 * 16 + b % 256 / 16),
       b64char (b % 16 * 4), '=']
  | a :: b :: c :: rest =>
      b64char (a % 256 / 4) :: b64char (a % 4 * 16 + b % 256 / 16) ::
      b64char (b % 16 * 4 + c % 256 / 64) :: b64char (c % 64) ::
      b64encodeBytes rest

/-- Model of `base64.b64encode(bytes).decode('utf-8')`: the base64 text of a
byte list as a string. -/
def b64encode (bs : List Nat) : String := String.mk (b64encodeBytes bs)

/-- The 6-bit value of a base64 alphabet character, `none` for characters
outside the alphabet. -/
def b64val (c : Char) : Option Nat := b64alphabet.indexOf? c

/-- Model of `base64.b64decode` on the characters of a base64 text: groups of
four characters decode to three bytes, with `=` padding at the end; `none`
models the `binascii.Error` raised on malformed input. -/
def b64decodeChars : List Char → Option (List Nat)
  | [] => some []
  | a :: b :: c :: d :: rest =>
      match b64val a, b64val b with
      | some va, some vb =>
          if c = '=' ∧ d = '=' ∧ rest = [] then
            some [va * 4 + vb / 16]
          else
            match b64val c with
            | some vc =>
                if d = '=' ∧ rest = [] then
                  some [va * 4 + vb / 16, vb % 16 * 16 + vc / 4]
                else
                  match b64val d, b64decodeChars rest with
                  | some vd, some tail =>
                      some ((va * 4 + vb / 16) :: (vb % 16 * 16 + vc / 4) ::
                            (vc % 4 * 64 + vd) :: tail)
                  | _, _ => none
            | none => none
      | _, _ => none
  | _ => none

/-- Model of `base64.b64decode` on a string. -/
def b64decode (s : String) : Option (List Nat) := b64decodeChars s.data

/-! ### JSON values

A model of the Python values produced by `response.json()` and consumed by
`json.dump`. The mutual presentation (`Json` / `JsonList` / `JsonObj`) keeps
all recursion structural. Numbers are modelled as integers, which covers
every value the claims exercise. -/

mutual
inductive Json where
  | null : Json
  | bool (b : Bool) : Json
  | num (n : Int) : Json
  | str (s : String) : Json
  | arr (xs : JsonList) : Json
  | obj (kvs : JsonObj) : Json
deriving DecidableEq

inductive JsonList where
  | nil : JsonList
  | cons (hd : Json) (tl : JsonList) : JsonList
deriving DecidableEq

inductive JsonObj where
  | nil : JsonObj
  | cons (key : String) (val : Json) (tl : JsonObj) : JsonObj
deriving DecidableEq
end

/-- Lookup of a key in a JSON object's field list (Python `dict` access;
keys of a parsed JSON `dict` are unique, so first match suffices). -/
def JsonObj.find : JsonObj → String → Option Json
  | .nil, _ => none
  | .cons k v tl, key => if k = key then some v else tl.find key

/-- Model of Python `response_json.get(key, default)` on a parsed JSON body.
The handlers only call it on `dict` bodies (the service's response schema);
a non-object body yields the default, standing in for the `AttributeError`
path that no claim exercises. -/
def jget (j : Json) (key : String) (default : Json) : Json :=
  match j with
  | .obj kvs => (kvs.find key).getD default
  | _ => default

/-- Model of Python truthiness (`if not x`) on JSON values: `None`, `False`,
`0`, `''`, `[]` and `\x7b\x7d` are falsy, everything else truthy. -/
def pyTruthy : Json → Bool
  | .null => false
  | .bool b => b
  | .num n => decide (n ≠ 0)
  | .str s => !(s = "")
  | .arr .nil => false
  | .arr (.cons _ _) => true
  | .obj .nil => false
  | .obj (.cons _ _ _) => true

/-- JSON string escaping as done by Python `json.dump`: backslash and quote
are escaped; the claims only exercise ASCII strings without control
characters, so other escapes are not modelled. -/
def json_dump_string_chars : List Char → List Char
  | [] => []
  | c :: rest =>
      if c = '\\' then '\\' :: '\\' :: json_dump_string_chars rest
      else if c = '\"' then '\\' :: '\"' :: json_dump_string_chars rest
      else c :: json_dump_string_chars rest

/-- A JSON string literal as serialized by Python `json.dump`. -/
def json_dump_string (s : String) : String :=
  "\"" ++ String.mk (json_dump_string_chars s.data) ++ "\""

mutual
/-- Model of Python `json.dump(value, file)` / `json.dumps(value)` with the
default options: item separator `", "`, key separator `": "`, no indent.
This is the text the segmentation client writes to its output file. -/
def json_dump : Json → String
  | .null => "null"
  | .bool true => "true"
  | .bool false => "false"
  | .num n => toString n
  | .str s => json_dump_string s
  | .arr xs => "[" ++ json_dump_list xs ++ "]"
  | .obj kvs => "\x7b" ++ json_dump_obj kvs ++ "\x7d"

/-- Serialization of the elements of a JSON array, `", "`-separated. -/
def json_dump_list : JsonList → String
  | .nil => ""
  | .cons x .nil => json_dump x
  | .cons x (.cons y tl) => json_dump x ++ ", " ++ json_dump_list (.cons y tl)

/-- Serialization of the fields of a JSON object, `", "`-separated with
`": "` between key and value. -/
def json_dump_obj : JsonObj → String
  | .nil => ""
  | .cons k v .nil => json_dump_string k ++ ": " ++ json_dump v
  | .cons k v (.cons k2 v2 tl) =>
      json_dump_string k ++ ": " ++ json_dump v ++ ", " ++
      json_dump_obj (.cons k2 v2 tl)
end

/-! ### HTTP and error model -/

/-- An HTTP request as the clients would send it: URL, bearer token and raw
body. The top-level functions log every request handed to the transport;
the log stays empty exactly when no network call is attempted. -/
structure HttpRequest where
  url : String
  bearer : String
  body : String
deriving DecidableEq

/-- An HTTP response as seen by the clients: `status` and `text` mirror
`response.status_code` / `response.text`; `json` models the value of
`response.json()`, i.e. the parse of `text` (the embedding carries the parsed
value alongside the text because the code uses both). -/
structure HttpResponse where
  status : Nat
  text : String
  json : Json
deriving DecidableEq

/-- The raise sites of both clients, one constructor per distinct `raise` (or
uncaught library exception) in the source. -/
inductive Err where
  /-- Raised as `ValueError: RUNPOD_API_KEY environment variable is not set.` -/
  | missingCredential : Err
  /-- Raised as `ValueError: Either image or image_path must be provided.` -/
  | missingInputImage : Err
  /-- Raised as `ValueError: Either mask or mask_path must be provided.` -/
  | missingInputMask : Err
  /-- Raised as `FileNotFoundError` from `open(path, "rb")`. -/
  | fileNotFound (path : String) : Err
  /-- Raised as `NameError: name json is not defined` — neither module imports `json`. -/
  | nameError (name : String) : Err
  /-- Raised as `requests.HTTPError` from `response.raise_for_status()`. -/
  | httpError (status : Nat) : Err
  /-- Raised as `ValueError: No output image in the response.` -/
  | emptyResult : Err
  /-- Raised as `binascii.Error` from `base64.b64decode` on malformed text. -/
  | decodeError : Err
  /-- Raised as `TypeError` from passing a non-string where bytes/str is required. -/
  | typeError : Err
deriving DecidableEq

/-- Model of the external library call `response.raise_for_status()` from
`requests`: it raises `HTTPError` exactly for status codes 400-599 (client
and server errors); informational, success and redirect statuses pass. -/
def raise_for_status (status : Nat) : Except Err Unit :=
  if 400 ≤ status ∧ status < 600 then .error (.httpError status) else .ok ()

/-! ### Input acquisition (inpainting.py lines 37-55, segmentation.py lines 37-45) -/

/-- The image-to-base64 block shared verbatim by both clients: an in-memory
image is PNG-encoded by `cv2.imencode('.png', ·)` and base64-encoded; a path
is opened and its raw bytes are base64-encoded as read; with neither source,
`ValueError("Either image or image_path must be provided.")` is raised. -/
def encode_image_source (fs : String → Option (List Nat))
    (image : Option Img) (image_path : Option String) : Except Err String :=
  match image with
  | some img => .ok (b64encode (cv2_imencode_png img))
  | none =>
      match image_path with
      | some p =>
          match fs p with
          | some bytes => .ok (b64encode bytes)
          | none => .error (.fileNotFound p)
      | none => .error .missingInputImage

/-- The mask-to-base64 block of the inpainting client (lines 47-55),
structurally identical to `encode_image_source` with the mask's error
message. -/
def encode_mask_source (fs : String → Option (List Nat))
    (mask : Option Img) (mask_path : Option String) : Except Err String :=
  match mask with
  | some m => .ok (b64encode (cv2_imencode_png m))
  | none =>
      match mask_path with
      | some p =>
          match fs p with
          | some bytes => .ok (b64encode bytes)
          | none => .error (.fileNotFound p)
      | none => .error .missingInputMask

/-! ### Top-level client functions (faithful, including the unresolved `json`)

Each returns its result paired with the list of HTTP requests handed to the
transport during the call. `inpainting.py` line 67 (`debug` branch) and line
76, and `segmentation.py` line 57 and line 63, evaluate `json.dumps(payload)`,
but neither module imports `json`, so Python raises
`NameError: name json is not defined` there — in the non-debug case while
evaluating the arguments of `requests.post`, hence before the transport is
invoked. The embedding therefore stops with `Err.nameError "json"` at that
point and the request log stays empty. -/

/-- Embedding of `inpaint_image_via_faas` (inpainting.py lines 11-115).
`api_key_env` is the value of the `RUNPOD_API_KEY` environment variable;
`fs` is the file system. -/
def inpaint_image_via_faas (api_key_env : Option String)
    (fs : String → Option (List Nat))
    (image : Option Img) (image_path : Option String)
    (mask : Option Img) (mask_path : Option String)
    (output_path endpoint_id : String) (debug : Bool) :
    Except Err Unit × List HttpRequest :=
  -- lines 30-32: `if not api_key: raise ValueError(...)`
  match api_key_env with
  | none => (.error .missingCredential, [])
  | some api_key =>
      if api_key = "" then (.error .missingCredential, [])
      else
        -- line 35 (unused before the NameError, kept for faithfulness)
        let _endpoint_url := "https://api.runpod.ai/v2/" ++ endpoint_id ++ "/runsync"
        match encode_image_source fs image image_path with
        | .error e => (.error e, [])
        | .ok _image_base64 =>
            match encode_mask_source fs mask mask_path with
            | .error e => (.error e, [])
            | .ok _mask_base64 =>
                -- payload built (lines 58-63); the next evaluation of `json`
                -- (line 67 when debug, line 76 otherwise) is an unresolved
                -- name, raised before `requests.post` runs
                (.error (.nameError "json"), [])

/-- Embedding of `segment_image_via_faas` (segmentation.py lines 12-86). -/
def segment_image_via_faas (api_key_env : Option String)
    (fs : String → Option (List Nat))
    (image : Option Img) (image_path : Option String)
    (class_names : Option (List String))
    (output_path endpoint_id : String) (debug : Bool) :
    Except Err Unit × List HttpRequest :=
  match api_key_env with
  | none => (.error .missingCredential, [])
  | some api_key =>
      if api_key = "" then (.error .missingCredential, [])
      else
        let _endpoint_url := "https://api.runpod.ai/v2/" ++ endpoint_id ++ "/runsync"
        match encode_image_source fs image image_path with
        | .error e => (.error e, [])
        | .ok _image_base64 =>
            -- payload built (lines 48-53); `json.dumps` at line 57 or 63 is
            -- an unresolved name, raised before `requests.post` runs
            (.error (.nameError "json"), [])

/-! ### Response processing (inpainting.py lines 85-115, segmentation.py lines 69-86)

These embed the post-request sections of each function, parameterized by the
response the transport would deliver. Each returns the function's return
value paired with the list of file writes it performs; every `raise` leaves
the write list empty. -/

/-- Embedding of inpainting.py lines 85-115: `raise_for_status`, extraction
of `output_image` (default `""`), the empty-result check, base64 decoding,
and the return-vs-write dispatch on `image is not None or mask is not None`.
The returned value is `some img` for the in-memory branch and `none` for the
file branch (Python `None`). -/
def inpaint_handle_response (image mask : Option Img) (output_path : String)
    (resp : HttpResponse) :
    Except Err (Option Img) × List (String × List Nat) :=
  match raise_for_status resp.status with
  | .error e => (.error e, [])
  | .ok _ =>
      let output_image_val := jget resp.json "output_image" (.str "")
      let _stats := jget resp.json "stats" (.obj .nil)
      if pyTruthy output_image_val = false then (.error .emptyResult, [])
      else
        match output_image_val with
        | .str output_image_base64 =>
            match b64decode output_image_base64 with
            | none => (.error .decodeError, [])
            | some output_image_data =>
                if image.isSome || mask.isSome then
                  (.ok (some (cv2_imdecode output_image_data)), [])
                else
                  (.ok none, [(output_path, output_image_data)])
        | _ => (.error .typeError, [])

/-- The dict returned by the segmentation client for an in-memory image:
decoded masks paired with the raw `bounding_boxes` value. -/
structure SegResult where
  masks : List Img
  bounding_boxes : Json
deriving DecidableEq

/-- Decoding of one element of the response's `masks` list (segmentation.py
line 78): `base64.b64decode` then `cv2.imdecode`; a non-string element is the
`TypeError` path of `b64decode`. -/
def decode_mask_entry (v : Json) : Except Err Img :=
  match v with
  | .str s =>
      match b64decode s with
      | some bytes => .ok (cv2_imdecode bytes)
      | none => .error .decodeError
  | _ => .error .typeError

/-- Decoding of the whole `masks` list, in order. -/
def decode_mask_list : JsonList → Except Err (List Img)
  | .nil => .ok []
  | .cons v tl =>
      match decode_mask_entry v with
      | .error e => .error e
      | .ok img =>
          match decode_mask_list tl with
          | .error e => .error e
          | .ok imgs => .ok (img :: imgs)

/-- Embedding of segmentation.py lines 69-86: `raise_for_status`, then
either (image in memory) building the result dict from
`response_json.get('masks', [])` and `response_json.get('bounding_boxes', [])`,
or (image by path) writing `json.dump(response_json)` to `output_path` and
returning `None`. Iterating a non-list `masks` value is the `TypeError`
path. -/
def segment_handle_response (image : Option Img) (output_path : String)
    (resp : HttpResponse) :
    Except Err (Option SegResult) × List (String × String) :=
  match raise_for_status resp.status with
  | .error e => (.error e, [])
  | .ok _ =>
      if image.isSome then
        match jget resp.json "masks" (.arr .nil) with
        | .arr masksJson =>
            match decode_mask_list masksJson with
            | .error e => (.error e, [])
            | .ok masks =>
                (.ok (some ⟨masks, jget resp.json "bounding_boxes" (.arr .nil)⟩), [])
        | _ => (.error .typeError, [])
      else
        (.ok none, [(output_path, json_dump resp.json)])

/-! ### Helper lemmas -/

/-- Every invocation of the inpainting client ends in an error: the happy
path dies at the unresolved name `json`, every other path at an earlier
raise. -/
theorem inpaint_always_error (ak : Option String) (fs : String → Option (List Nat))
    (i : Option Img) (ip : Option String) (m : Option Img) (mp : Option String)
    (op ep : String) (d : Bool) :
    ∃ e, (inpaint_image_via_faas ak fs i ip m mp op ep d).1 = .error e := by
  unfold inpaint_image_via_faas
  cases ak with
  | none => exact ⟨.missingCredential, rfl⟩
  | some k =>
      by_cases hk : k = ""
      · exact ⟨.missingCredential, by simp [hk]⟩
      · cases hie : encode_image_source fs i ip with
        | error e => exact ⟨e, by simp [hk, hie]⟩
        | ok s =>
            cases hme : encode_mask_source fs m mp with
            | error e => exact ⟨e, by simp [hk, hie, hme]⟩
            | ok t => exact ⟨.nameError "json", by simp [hk, hie, hme]⟩

/-- Every invocation of the segmentation client ends in an error. -/
theorem segment_always_error (ak : Option String) (fs : String → Option (List Nat))
    (i : Option Img) (ip : Option String) (cn : Option (List String))
    (op ep : String) (d : Bool) :
    ∃ e, (segment_image_via_faas ak fs i ip cn op ep d).1 = .error e := by
  unfold segment_image_via_faas
  cases ak with
  | none => exact ⟨.missingCredential, rfl⟩
  | some k =>
      by_cases hk : k = ""
      · exact ⟨.missingCredential, by simp [hk]⟩
      · cases hie : encode_image_source fs i ip with
        | error e => exact ⟨e, by simp [hk, hie]⟩
        | ok s => exact ⟨.nameError "json", by simp [hk, hie]⟩

/-! ### Claim theorems -/

/-- Claim C1: with the credential set and a valid image (and, for inpainting,
mask) source, both clients fail with `NameError` on the unresolved name
`json` at payload serialization, before any HTTP request reaches the
transport (empty request log); moreover no invocation of either client ever
completes successfully. -/
theorem c1_json_name_error
    (api_key : String) (hkey : api_key ≠ "")
    (fs : String → Option (List Nat))
    (image : Option Img) (image_path : Option String)
    (mask : Option Img) (mask_path : Option String)
    (cn : Option (List String)) (ib mb : String)
    (hi : encode_image_source fs image image_path = .ok ib)
    (hm : encode_mask_source fs mask mask_path = .ok mb)
    (op ep : String) (d : Bool) :
    inpaint_image_via_faas (some api_key) fs image image_path mask mask_path op ep d
      = (.error (.nameError "json"), [])
    ∧ segment_image_via_faas (some api_key) fs image image_path cn op ep d
      = (.error (.nameError "json"), [])
    ∧ (∀ ak fs2 i ip m mp op2 ep2 d2,
        ∃ e, (inpaint_image_via_faas ak fs2 i ip m mp op2 ep2 d2).1 = .error e)
    ∧ (∀ ak fs2 i ip cn2 op2 ep2 d2,
        ∃ e, (segment_image_via_faas ak fs2 i ip cn2 op2 ep2 d2).1 = .error e) := by
  refine ⟨?_, ?_, fun ak fs2 i ip m mp op2 ep2 d2 => inpaint_always_error _ _ _ _ _ _ _ _ _,
          fun ak fs2 i ip cn2 op2 ep2 d2 => segment_always_error _ _ _ _ _ _ _ _⟩
  · unfold inpaint_image_via_faas
    simp [hkey, hi, hm]
  · unfold segment_image_via_faas
    simp [hkey, hi]

/-- Witness for C1 at a concrete input: credential `"k"`, in-memory image
and mask. -/
theorem c1_json_name_error_witness :
    inpaint_image_via_faas (some "k") (fun _ => none)
        (some ⟨[]⟩) none (some ⟨[]⟩) none "result.png" "906cbtg1541h5c" false
      = (.error (.nameError "json"), [])
    ∧ segment_image_via_faas (some "k") (fun _ => none)
        (some ⟨[]⟩) none none "result.json" "906cbtg1541h5c" false
      = (.error (.nameError "json"), []) := by
  have h := c1_json_name_error "k" (by decide) (fun _ => none)
    (some ⟨[]⟩) none (some ⟨[]⟩) none none
    (b64encode (cv2_imencode_png ⟨[]⟩)) (b64encode (cv2_imencode_png ⟨[]⟩))
    rfl rfl "result.png" "906cbtg1541h5c" false
  have h2 := c1_json_name_error "k" (by decide) (fun _ => none)
    (some ⟨[]⟩) none (some ⟨[]⟩) none none
    (b64encode (cv2_imencode_png ⟨[]⟩)) (b64encode (cv2_imencode_png ⟨[]⟩))
    rfl rfl "result.json" "906cbtg1541h5c" false
  exact ⟨h.1, h2.2.1⟩

/-- Raw bytes of a non-PNG file (the first bytes of a JPEG stream), used to
refute C2's file-path half. -/
def c2_jpeg_bytes : List Nat := [255, 216, 255, 224]

/-- Claim C2 counterexample: a file read from disk is base64-encoded as its
raw bytes, with no PNG re-encoding — here a JPEG file's payload text is the
base64 of the JPEG bytes, which cannot be the base64 of any PNG serialization
(every PNG stream begins with the PNG signature, so its base64 starts with a
different character). -/
theorem c2_counterexample :
    encode_image_source (fun p => if p = "photo.jpg" then some c2_jpeg_bytes else none)
        none (some "photo.jpg")
      = .ok (b64encode c2_jpeg_bytes)
    ∧ ¬ ∃ i : Img, b64encode c2_jpeg_bytes = b64encode (cv2_imencode_png i) := by
  constructor
  · rfl
  · rintro ⟨i, h⟩
    simp only [b64encode, c2_jpeg_bytes, cv2_imencode_png, pngSignature,
      List.cons_append, List.nil_append, b64encodeBytes] at h
    have hd := congrArg String.data h
    simp [b64char, b64alphabet] at hd

/-- Claim C2 amended: in both clients an in-memory source is PNG-serialized
(`cv2.imencode('.png', ·)`) and then base64-encoded, while a file-path source
is read from disk and its raw bytes base64-encoded with no PNG
normalization. -/
theorem c2_amended_encoding
    (fs : String → Option (List Nat)) (i m : Img) (p q : String)
    (bytes mbytes : List Nat)
    (hp : fs p = some bytes) (hq : fs q = some mbytes) :
    encode_image_source fs (some i) none = .ok (b64encode (cv2_imencode_png i))
    ∧ encode_image_source fs none (some p) = .ok (b64encode bytes)
    ∧ encode_mask_source fs (some m) none = .ok (b64encode (cv2_imencode_png m))
    ∧ encode_mask_source fs none (some q) = .ok (b64encode mbytes) := by
  refine ⟨rfl, ?_, rfl, ?_⟩ <;>
    simp [encode_image_source, encode_mask_source, hp, hq]

/-- Witness for the amended C2 at a concrete input. -/
theorem c2_amended_encoding_witness :
    encode_image_source (fun _ => some [1]) (some ⟨[2]⟩) none
      = .ok (b64encode (cv2_imencode_png ⟨[2]⟩))
    ∧ encode_image_source (fun _ => some [1]) none (some "a.png")
      = .ok (b64encode [1])
    ∧ encode_mask_source (fun _ => some [1]) (some ⟨[3]⟩) none
      = .ok (b64encode (cv2_imencode_png ⟨[3]⟩))
    ∧ encode_mask_source (fun _ => some [1]) none (some "b.png")
      = .ok (b64encode [1]) :=
  c2_amended_encoding (fun _ => some [1]) ⟨[2]⟩ ⟨[3]⟩ "a.png" "b.png" [1] [1] rfl rfl

/-- Claim C5: with the credential set but no image source (and, for
inpainting, no mask source while an image is present), both clients raise
the corresponding missing-input `ValueError` and hand zero requests to the
transport. -/
theorem c5_missing_input_before_network
    (api_key : String) (hkey : api_key ≠ "")
    (fs : String → Option (List Nat))
    (mask : Option Img) (mask_path : Option String) (i : Img)
    (cn : Option (List String)) (op ep : String) (d : Bool) :
    inpaint_image_via_faas (some api_key) fs none none mask mask_path op ep d
      = (.error .missingInputImage, [])
    ∧ inpaint_image_via_faas (some api_key) fs (some i) none none none op ep d
      = (.error .missingInputMask, [])
    ∧ segment_image_via_faas (some api_key) fs none none cn op ep d
      = (.error .missingInputImage, []) := by
  unfold inpaint_image_via_faas segment_image_via_faas
  simp [hkey, encode_image_source, encode_mask_source]

/-- Witness for C5 at a concrete input. -/
theorem c5_missing_input_before_network_witness :
    inpaint_image_via_faas (some "k") (fun _ => none) none none none none
        "result.png" "906cbtg1541h5c" false
      = (.error .missingInputImage, [])
    ∧ inpaint_image_via_faas (some "k") (fun _ => none) (some ⟨[]⟩) none none none
        "result.png" "906cbtg1541h5c" false
      = (.error .missingInputMask, [])
    ∧ segment_image_via_faas (some "k") (fun _ => none) none none none
        "result.json" "906cbtg1541h5c" false
      = (.error .missingInputImage, []) :=
  ⟨(c5_missing_input_before_network "k" (by decide) (fun _ => none)
      none none ⟨[]⟩ none "result.png" "906cbtg1541h5c" false).1,
   (c5_missing_input_before_network "k" (by decide) (fun _ => none)
      none none ⟨[]⟩ none "result.png" "906cbtg1541h5c" false).2.1,
   (c5_missing_input_before_network "k" (by decide) (fun _ => none)
      none none ⟨[]⟩ none "result.json" "906cbtg1541h5c" false).2.2⟩

/-- Claim C6: with the credential environment variable unset or empty, both
clients raise the missing-credential `ValueError` with zero requests handed
to the transport, whatever the other arguments. -/
theorem c6_missing_credential_before_network
    (key : Option String) (hkey : key = none ∨ key = some "")
    (fs : String → Option (List Nat))
    (image : Option Img) (image_path : Option String)
    (mask : Option Img) (mask_path : Option String)
    (cn : Option (List String)) (op ep : String) (d : Bool) :
    inpaint_image_via_faas key fs image image_path mask mask_path op ep d
      = (.error .missingCredential, [])
    ∧ segment_image_via_faas key fs image image_path cn op ep d
      = (.error .missingCredential, []) := by
  rcases hkey with h | h <;> subst h <;>
    simp [inpaint_image_via_faas, segment_image_via_faas]

/-- Witness for C6 at a concrete input (unset variable). -/
theorem c6_missing_credential_before_network_witness :
    inpaint_image_via_faas none (fun _ => none) (some ⟨[]⟩) none (some ⟨[]⟩) none
        "result.png" "906cbtg1541h5c" false
      = (.error .missingCredential, [])
    ∧ segment_image_via_faas none (fun _ => none) (some ⟨[]⟩) none none
        "result.json" "906cbtg1541h5c" false
      = (.error .missingCredential, []) :=
  ⟨(c6_missing_credential_before_network none (Or.inl rfl) (fun _ => none)
      (some ⟨[]⟩) none (some ⟨[]⟩) none none "result.png" "906cbtg1541h5c" false).1,
   (c6_missing_credential_before_network none (Or.inl rfl) (fun _ => none)
      (some ⟨[]⟩) none (some ⟨[]⟩) none none "result.json" "906cbtg1541h5c" false).2⟩

/-- Claim C3: on a successful response to the inpainting client, an
in-memory image is returned exactly when the caller supplied the image or
the mask in memory (and then nothing is written), and otherwise the
base64-decoded `output_image` bytes are written byte-for-byte to the
destination path with nothing returned. -/
theorem c3_inpaint_output_dispatch
    (image mask : Option Img) (op : String) (resp : HttpResponse)
    (ret : Option Img) (writes : List (String × List Nat))
    (h : inpaint_handle_response image mask op resp = (.ok ret, writes)) :
    (ret.isSome = (image.isSome || mask.isSome))
    ∧ ((image.isSome || mask.isSome) = true → writes = [])
    ∧ (image = none → mask = none →
        ret = none ∧
        ∃ s bytes, jget resp.json "output_image" (.str "") = .str s
          ∧ b64decode s = some bytes
          ∧ writes = [(op, bytes)]) := by
  unfold inpaint_handle_response at h
  cases hrs : raise_for_status resp.status with
  | error e => rw [hrs] at h; exact absurd (congrArg Prod.fst h) (by simp)
  | ok u =>
      rw [hrs] at h
      simp only at h
      by_cases ht : pyTruthy (jget resp.json "output_image" (.str "")) = false
      · rw [if_pos ht] at h
        exact absurd (congrArg Prod.fst h) (by simp)
      · rw [if_neg ht] at h
        cases hv : jget resp.json "output_image" (.str "") with
        | str s =>
            rw [hv] at h
            dsimp only at h
            cases hdec : b64decode s with
            | none => rw [hdec] at h; exact absurd (congrArg Prod.fst h) (by simp)
            | some bytes =>
                rw [hdec] at h
                dsimp only at h
                by_cases hio : (image.isSome || mask.isSome) = true
                · rw [if_pos hio] at h
                  injection h with h1 h2
                  injection h1 with h1
                  subst h1; subst h2
                  refine ⟨by simp [hio], fun _ => rfl, fun hin hmn => ?_⟩
                  exfalso; rw [hin, hmn] at hio; simp at hio
                · rw [if_neg hio] at h
                  injection h with h1 h2
                  injection h1 with h1
                  subst h1; subst h2
                  have hio2 : (image.isSome || mask.isSome) = false := by
                    simpa using hio
                  exact ⟨by simp [hio2], fun hc => absurd hc hio,
                    fun _ _ => ⟨rfl, s, bytes, rfl, hdec, rfl⟩⟩
        | null => rw [hv] at h; exact absurd (congrArg Prod.fst h) (by simp)
        | bool b => rw [hv] at h; exact absurd (congrArg Prod.fst h) (by simp)
        | num n => rw [hv] at h; exact absurd (congrArg Prod.fst h) (by simp)
        | arr xs => rw [hv] at h; exact absurd (congrArg Prod.fst h) (by simp)
        | obj kvs => rw [hv] at h; exact absurd (congrArg Prod.fst h) (by simp)

/-- A 2xx response whose body carries an `output_image` field, used as the
concrete input of the C3 witness. Its `json` field is the parse of its
`text` field. -/
def c3_resp : HttpResponse :=
  ⟨200, "\x7b\"output_image\": \"AA==\"\x7d",
   .obj (.cons "output_image" (.str "AA==") .nil)⟩

/-- Witness for C3 at a concrete input: both sources by path, so the decoded
bytes are written verbatim and nothing is returned. -/
theorem c3_inpaint_output_dispatch_witness :
    inpaint_handle_response none none "o.png" c3_resp = (.ok none, [("o.png", [0])])
    ∧ ((none : Option Img) = none → (none : Option Img) = none →
        (none : Option Img) = none ∧
        ∃ s bytes, jget c3_resp.json "output_image" (.str "") = .str s
          ∧ b64decode s = some bytes
          ∧ [("o.png", [0])] = [("o.png", bytes)]) :=
  ⟨rfl, (c3_inpaint_output_dispatch none none "o.png" c3_resp none
            [("o.png", [0])] rfl).2.2⟩

/-- Claim C7: a 2xx inpainting response whose JSON lacks a non-empty
`output_image` field (absent, hence defaulted to `""`, or present and empty)
raises the empty-result `ValueError`; nothing is returned and nothing is
written. -/
theorem c7_inpaint_empty_result
    (image mask : Option Img) (op : String) (resp : HttpResponse)
    (h2xx : 200 ≤ resp.status ∧ resp.status < 300)
    (hempty : jget resp.json "output_image" (.str "") = .str "") :
    inpaint_handle_response image mask op resp = (.error .emptyResult, []) := by
  have hns : raise_for_status resp.status = .ok () := by
    unfold raise_for_status
    rw [if_neg (by omega)]
  unfold inpaint_handle_response
  rw [hns]
  simp [hempty, pyTruthy]

/-- Witness for C7 at a concrete input: a 200 response with no
`output_image` field at all. -/
theorem c7_inpaint_empty_result_witness :
    (200 ≤ (200 : Nat) ∧ (200 : Nat) < 300)
    ∧ inpaint_handle_response (some ⟨[]⟩) none "o.png" ⟨200, "\x7b\x7d", .obj .nil⟩
        = (.error .emptyResult, []) :=
  ⟨by decide,
   c7_inpaint_empty_result (some ⟨[]⟩) none "o.png" ⟨200, "\x7b\x7d", .obj .nil⟩
     (by decide) rfl⟩

/-- Claim C8: a 2xx segmentation response with an empty or absent `masks`
list, for an in-memory image, succeeds and returns an empty mask sequence
(no error, no write). -/
theorem c8_segment_empty_masks_success
    (i : Img) (op : String) (resp : HttpResponse)
    (h2xx : 200 ≤ resp.status ∧ resp.status < 300)
    (hmasks : jget resp.json "masks" (.arr .nil) = .arr .nil) :
    segment_handle_response (some i) op resp
      = (.ok (some ⟨[], jget resp.json "bounding_boxes" (.arr .nil)⟩), []) := by
  have hns : raise_for_status resp.status = .ok () := by
    unfold raise_for_status
    rw [if_neg (by omega)]
  unfold segment_handle_response
  rw [hns]
  simp [hmasks, decode_mask_list]

/-- Witness for C8 at a concrete input: a 200 response with no `masks`
field. -/
theorem c8_segment_empty_masks_success_witness :
    (200 ≤ (200 : Nat) ∧ (200 : Nat) < 300)
    ∧ segment_handle_response (some ⟨[]⟩) "o.json" ⟨200, "\x7b\x7d", .obj .nil⟩
        = (.ok (some ⟨[], jget (Json.obj .nil) "bounding_boxes" (.arr .nil)⟩), []) :=
  ⟨by decide,
   c8_segment_empty_masks_success ⟨[]⟩ "o.json" ⟨200, "\x7b\x7d", .obj .nil⟩
     (by decide) rfl⟩

/-- A 304 response with a usable body: not a 2xx status, yet
`raise_for_status` does not raise for it. Its `json` field is the parse of
its `text` field. -/
def c9_resp : HttpResponse :=
  ⟨304, "\x7b\"output_image\": \"AA==\"\x7d",
   .obj (.cons "output_image" (.str "AA==") .nil)⟩

/-- Claim C9 counterexample: a non-2xx response (status 304) does not raise
`HTTPError` in either client — `requests.raise_for_status` only raises for
statuses 400-599, so both handlers proceed and succeed. -/
theorem c9_counterexample :
    ¬(200 ≤ c9_resp.status ∧ c9_resp.status < 300)
    ∧ inpaint_handle_response (some ⟨[]⟩) none "out.png" c9_resp
        = (.ok (some ⟨[0]⟩), [])
    ∧ segment_handle_response (some ⟨[]⟩) "out.json" c9_resp
        = (.ok (some ⟨[], .arr .nil⟩), []) :=
  ⟨by decide, rfl, rfl⟩

/-- Claim C9 amended: a response with status 400-599 (the statuses
`raise_for_status` treats as errors) makes either client raise `HTTPError`
carrying that status, with nothing returned and nothing written; other
non-2xx statuses (1xx/3xx) pass through unraised. -/
theorem c9_amended_http_error
    (image mask : Option Img) (op : String) (resp : HttpResponse)
    (i2 : Option Img) (op2 : String) (resp2 : HttpResponse)
    (h : 400 ≤ resp.status ∧ resp.status < 600)
    (h2 : 400 ≤ resp2.status ∧ resp2.status < 600) :
    inpaint_handle_response image mask op resp
      = (.error (.httpError resp.status), [])
    ∧ segment_handle_response i2 op2 resp2
      = (.error (.httpError resp2.status), []) := by
  have e1 : raise_for_status resp.status = .error (.httpError resp.status) := by
    unfold raise_for_status
    rw [if_pos h]
  have e2 : raise_for_status resp2.status = .error (.httpError resp2.status) := by
    unfold raise_for_status
    rw [if_pos h2]
  constructor
  · unfold inpaint_handle_response
    rw [e1]
  · unfold segment_handle_response
    rw [e2]

/-- Witness for the amended C9 at a concrete input: a simulated 500 response
raises `HTTPError` carrying 500 in both clients. -/
theorem c9_amended_http_error_witness :
    (400 ≤ (500 : Nat) ∧ (500 : Nat) < 600)
    ∧ inpaint_handle_response (some ⟨[]⟩) none "o.png" ⟨500, "err", .obj .nil⟩
        = (.error (.httpError 500), [])
    ∧ segment_handle_response none "o.json" ⟨500, "err", .obj .nil⟩
        = (.error (.httpError 500), []) :=
  ⟨by decide,
   (c9_amended_http_error (some ⟨[]⟩) none "o.png" ⟨500, "err", .obj .nil⟩
      none "o.json" ⟨500, "err", .obj .nil⟩ (by decide) (by decide)).1,
   (c9_amended_http_error (some ⟨[]⟩) none "o.png" ⟨500, "err", .obj .nil⟩
      none "o.json" ⟨500, "err", .obj .nil⟩ (by decide) (by decide)).2⟩

/-- A 200 segmentation response whose raw text has no space after the colon.
`json.loads` of this text yields the object in the `json` field; Python
`json.dump` re-serializes that object with `": "` after each key, so the
written text differs from the received text. -/
def c4_resp : HttpResponse :=
  ⟨200, "\x7b\"masks\":[]\x7d", .obj (.cons "masks" (.arr .nil) .nil)⟩

/-- Claim C4 counterexample: with the image supplied by path, the
segmentation client writes `json.dump(response.json())`, a re-serialization
of the parsed body, not the raw response text character-for-character — here
the received text `\x7b"masks":[]\x7d` is written back as
`\x7b"masks": []\x7d`. -/
theorem c4_counterexample :
    segment_handle_response none "out.json" c4_resp
      = (.ok none, [("out.json", "\x7b\"masks\": []\x7d")])
    ∧ "\x7b\"masks\": []\x7d" ≠ c4_resp.text :=
  ⟨rfl, by decide⟩

/-- Claim C4 amended: for a successful segmentation call whose image was
supplied by path, the parsed response JSON is re-serialized with Python
`json.dump` defaults and written to the destination path (equivalent to the
raw text only up to JSON re-serialization), and nothing is returned. -/
theorem c4_amended_writes_reserialized_json
    (op : String) (resp : HttpResponse)
    (h2xx : 200 ≤ resp.status ∧ resp.status < 300) :
    segment_handle_response none op resp
      = (.ok none, [(op, json_dump resp.json)]) := by
  have hns : raise_for_status resp.status = .ok () := by
    unfold raise_for_status
    rw [if_neg (by omega)]
  unfold segment_handle_response
  rw [hns]
  simp

/-- Witness for the amended C4 at a concrete input. -/
theorem c4_amended_writes_reserialized_json_witness :
    (200 ≤ (200 : Nat) ∧ (200 : Nat) < 300)
    ∧ segment_handle_response none "r.json" ⟨200, "\x7b\x7d", .obj .nil⟩
        = (.ok none, [("r.json", json_dump (.obj .nil))]) :=
  ⟨by decide,
   c4_amended_writes_reserialized_json "r.json" ⟨200, "\x7b\x7d", .obj .nil⟩
     (by decide)⟩

/-- Every run of the inpainting response section either raises with an empty
write list or succeeds. -/
theorem inpaint_handle_response_shape
    (image mask : Option Img) (op : String) (resp : HttpResponse) :
    (∃ e, inpaint_handle_response image mask op resp = (.error e, []))
    ∨ (∃ v w, inpaint_handle_response image mask op resp = (.ok v, w)) := by
  unfold inpaint_handle_response
  cases raise_for_status resp.status with
  | error e => exact .inl ⟨e, rfl⟩
  | ok u =>
      simp only
      by_cases ht : pyTruthy (jget resp.json "output_image" (.str "")) = false
      · rw [if_pos ht]
        exact .inl ⟨.emptyResult, rfl⟩
      · rw [if_neg ht]
        cases jget resp.json "output_image" (.str "") with
        | str s =>
            dsimp only
            cases b64decode s with
            | none => exact .inl ⟨.decodeError, rfl⟩
            | some bytes =>
                dsimp only
                by_cases hio : (image.isSome || mask.isSome) = true
                · rw [if_pos hio]
                  exact .inr ⟨_, _, rfl⟩
                · rw [if_neg hio]
                  exact .inr ⟨_, _, rfl⟩
        | null => exact .inl ⟨.typeError, rfl⟩
        | bool b => exact .inl ⟨.typeError, rfl⟩
        | num n => exact .inl ⟨.typeError, rfl⟩
        | arr xs => exact .inl ⟨.typeError, rfl⟩
        | obj kvs => exact .inl ⟨.typeError, rfl⟩

/-- Every run of the segmentation response section either raises with an
empty write list or succeeds. -/
theorem segment_handle_response_shape
    (image : Option Img) (op : String) (resp : HttpResponse) :
    (∃ e, segment_handle_response image op resp = (.error e, []))
    ∨ (∃ v w, segment_handle_response image op resp = (.ok v, w)) := by
  unfold segment_handle_response
  cases raise_for_status resp.status with
  | error e => exact .inl ⟨e, rfl⟩
  | ok u =>
      simp only
      by_cases hio : image.isSome = true
      · rw [if_pos hio]
        cases jget resp.json "masks" (.arr .nil) with
        | arr masksJson =>
            dsimp only
            cases decode_mask_list masksJson with
            | error e => exact .inl ⟨e, rfl⟩
            | ok masks => exact .inr ⟨_, _, rfl⟩
        | null => exact .inl ⟨.typeError, rfl⟩
        | bool b => exact .inl ⟨.typeError, rfl⟩
        | num n => exact .inl ⟨.typeError, rfl⟩
        | str s => exact .inl ⟨.typeError, rfl⟩
        | obj kvs => exact .inl ⟨.typeError, rfl⟩
      · rw [if_neg hio]
        exact .inr ⟨_, _, rfl⟩

/-- Claim C10: on every error path of either response section the write
list is empty — a call either fully succeeds or raises before any output is
produced (an error result carries no return value by construction). -/
theorem c10_no_partial_output
    (image mask : Option Img) (op : String) (resp : HttpResponse)
    (i2 : Option Img) (op2 : String) (resp2 : HttpResponse) (e e2 : Err)
    (h : (inpaint_handle_response image mask op resp).1 = .error e)
    (h2 : (segment_handle_response i2 op2 resp2).1 = .error e2) :
    (inpaint_handle_response image mask op resp).2 = []
    ∧ (segment_handle_response i2 op2 resp2).2 = [] := by
  constructor
  · rcases inpaint_handle_response_shape image mask op resp with ⟨e3, he⟩ | ⟨v, w, hv⟩
    · rw [he]
    · rw [hv] at h
      simp at h
  · rcases segment_handle_response_shape i2 op2 resp2 with ⟨e3, he⟩ | ⟨v, w, hv⟩
    · rw [he]
    · rw [hv] at h2
      simp at h2

/-- Witness for C10 at a concrete input: both handlers fail on a 500
response and write nothing. -/
theorem c10_no_partial_output_witness :
    (inpaint_handle_response (some ⟨[]⟩) none "o.png" ⟨500, "err", .obj .nil⟩).1
        = .error (.httpError 500)
    ∧ (segment_handle_response none "o.json" ⟨500, "err", .obj .nil⟩).1
        = .error (.httpError 500)
    ∧ (inpaint_handle_response (some ⟨[]⟩) none "o.png" ⟨500, "err", .obj .nil⟩).2 = []
    ∧ (segment_handle_response none "o.json" ⟨500, "err", .obj .nil⟩).2 = [] := by
  refine ⟨rfl, rfl, ?_⟩
  exact c10_no_partial_output (some ⟨[]⟩) none "o.png" ⟨500, "err", .obj .nil⟩
    none "o.json" ⟨500, "err", .obj .nil⟩ (.httpError 500) (.httpError 500) rfl rfl

end CloudServiceUtils
